import Mathlib

/-!
Verification model of `src/shared/ui/Authentication/Signup.tsx`.

The file embeds the pure parts of the signup form component:
the three field validators (`isEmailValid`, `isPasswordValid`,
`isUsernameValid`, `isNotEmpty`), the per-field validity callback
`onValidityChanged`, and the submit handler `onSubmit`, modelled as a
pure function from the component props, the pre-attempt component state
(the state of the render in which the handler was created) and the
outcome of the awaited registration call, to the post-attempt component
state plus the ordered list of external effects (network request,
telemetry, navigation dispatch, error log).

React semantics note, load-bearing for the submit gate: a `useState`
setter does not change the value of the local binding captured by the
currently running event handler; the new value is only visible to the
next render.  Hence the validity recomputation at the top of `onSubmit`
(source lines 87-91) updates the *post-attempt* state, while the gate
condition (source lines 93-102) reads the *render-time* flag values.
The embedding keeps the two apart: the gate reads the incoming state
`s0`, the recomputed flags go into the returned state.
-/

/-- Character class `[a-zA-Z0-9]` of the email regex. -/
def alnum (c : Char) : Bool := c.isAlpha || c.isDigit

/-- Character class `[a-zA-Z0-9-]` of the email regex. -/
def alnumHyphen (c : Char) : Bool := alnum c || c == '-'

/-- The 20 non-alphanumeric characters of the local-part character class
of the email regex (dot, bang, hash, dollar, percent, ampersand,
apostrophe, star, plus, slash, equals, question mark, caret, underscore,
backtick, left brace, pipe, right brace, tilde, hyphen); the characters
that cannot appear literally here are written by code point.  -/
def localSpecialChars : List Char :=
  ['.', '!', '#', '$', '%', '&', Char.ofNat 39, '*', '+', '/', '=', '?',
   Char.ofNat 94, '_', Char.ofNat 96, Char.ofNat 123, '|', Char.ofNat 125, '~', '-']

/-- The local-part character class of the email regex. -/
def localChar (c : Char) : Bool := alnum c || localSpecialChars.contains c

/-- JavaScript `.` in a regex without the `s` flag: any character except
the four LineTerminator code points. -/
def dotAny (c : Char) : Bool :=
  !(c == Char.ofNat 10 || c == Char.ofNat 13 || c == Char.ofNat 0x2028 || c == Char.ofNat 0x2029)

/-- Language of the regex fragment
`[a-zA-Z0-9](?:[a-zA-Z0-9-]{0,61}[a-zA-Z0-9])?`: one alphanumeric, or an
alphanumeric followed by at most 61 alphanumeric-or-hyphen characters and
a final alphanumeric. -/
def isLabel : List Char → Bool
  | [] => false
  | c :: rest =>
      alnum c &&
        (rest.isEmpty ||
          (rest.length ≤ 62 && rest.dropLast.all alnumHyphen && alnum (rest.getLastD 'A')))

/-- Fuel-indexed matcher for the domain part of the email regex,
`[a-zA-Z0-9](?:[a-zA-Z0-9-]{0,61}[a-zA-Z0-9])?(?:.[a-zA-Z0-9](?:[a-zA-Z0-9-]{0,61}[a-zA-Z0-9])?)*`,
i.e. a label followed by any number of (separator character, label)
pairs, where the separator is the *unescaped* dot of the source pattern
(string-built `RegExp`, source line 25) and therefore matches any
non-line-terminator character.  A label has length 1 to 63, so any
prefix of that shape has length at most 63; the matcher tries every
candidate label length.  Each step of the star consumes at least two
characters, so fuel `length + 1` always suffices. -/
def matchDomF : Nat → List Char → Bool
  | 0, _ => false
  | _ + 1, [] => false
  | n + 1, l =>
      (List.range 63).any fun i =>
        let k := i + 1
        decide (k ≤ l.length) && isLabel (l.take k) &&
          (match l.drop k with
           | [] => true
           | c :: r => dotAny c && matchDomF n r)

/-- Matcher for the domain part of the email regex, with enough fuel. -/
def matchDom (l : List Char) : Bool := matchDomF (l.length + 1) l

/-- Full-match test of the anchored email regex of source line 25.  The
pattern is `^LOCAL+@DOM$` where `LOCAL` is the local-part class (which
does not contain at-sign) and `DOM` is the domain language above; a
match is a split of the input at an at-sign with a non-empty all-LOCAL
prefix and a DOM suffix. -/
def emailRegexTest (l : List Char) : Bool :=
  (List.range l.length).any fun k =>
    (l.getD k 'A' == '@') && !(l.take k).isEmpty && (l.take k).all localChar &&
      matchDom (l.drop (k + 1))

/-- Source `isEmailValid` (lines 23-28): non-empty and matched by the
email regex. -/
def isEmailValid (email : String) : Bool :=
  email != "" && emailRegexTest email.data

/-- Source `isPasswordValid` (line 22): length at least 6. -/
def isPasswordValid (password : String) : Bool := decide (6 ≤ password.length)

/-- Character class `[-a-zA-Z0-9_.]` of the username regex (line 29). -/
def usernameChar (c : Char) : Bool :=
  c == '-' || (decide ('a' ≤ c) && decide (c ≤ 'z')) ||
    (decide ('A' ≤ c) && decide (c ≤ 'Z')) ||
    (decide ('0' ≤ c) && decide (c ≤ '9')) || c == '_' || c == '.'

/-- Source `isUsernameValid` (line 29): full match of
`^[-a-zA-Z0-9_.]{1,21}$`, i.e. 1 to 21 characters of the class. -/
def isUsernameValid (username : String) : Bool :=
  decide (1 ≤ username.length) && decide (username.length ≤ 21) &&
    username.data.all usernameChar

/-- Source `isNotEmpty` (line 31). -/
def isNotEmpty (s : String) : Bool := decide (0 < s.length)

/-- Inbound component props (source lines 33-39).  The signup-variant
prop `type` only affects back-navigation and is not needed here. -/
structure Props where
  email : Option String
  teamName : Option String
  teamId : Option String
  inviteCode : Option String
deriving DecidableEq, Repr

/-- Component state: the five text fields, their validity flags, and the
three status flags (source lines 43-55). -/
structure SignupState where
  email : String
  emailValidity : Bool
  username : String
  usernameValidity : Bool
  password : String
  passwordValidity : Bool
  fullName : String
  fullNameValidity : Bool
  companyName : String
  companyNameValidity : Bool
  isLoading : Bool
  unexpectedError : Bool
  inviteConflict : Bool
deriving DecidableEq, Repr

/-- Source `wasInvited` (line 57): an invite code was supplied. -/
def wasInvited (props : Props) : Bool := props.inviteCode.isSome

/-- The registration request payload built by `onSubmit`
(source lines 106-113); `companyName` is `undefined` when invited. -/
structure Attributes where
  email : String
  username : String
  password : String
  fullName : String
  inviteCode : Option String
  companyName : Option String
deriving DecidableEq, Repr

/-- A telemetry `track` call: event name plus the two properties sent by
this component (source lines 116-121). -/
structure TelemetryEvent where
  name : String
  email : String
  changedInviteEmail : Option Bool
deriving DecidableEq, Repr

/-- A `logError` call: message plus the context object (source
lines 158-161). -/
structure LogEntry where
  message : String
  email : String
  inviteCode : Option String
deriving DecidableEq, Repr

/-- The navigation actions this component can dispatch after a
registration response (source lines 126-148). -/
inductive NavAction
  | emailConfirmation (email : String) (teamId : Option String) (registrationParams : Attributes)
  | teamCreation (token : Option String) (email : String)
  | completeSignupAction (email : String) (token : Option String) (teamId : Option String)
      (createdTeam : Bool)
deriving DecidableEq, Repr

/-- One external effect of a submit attempt, in program order. -/
inductive Effect
  | register (attributes : Attributes)
  | track (event : TelemetryEvent)
  | nav (action : NavAction)
  | log (entry : LogEntry)
deriving DecidableEq, Repr

/-- Result of one run of the submit handler: the post-attempt component
state and the ordered external effects. -/
structure SubmitResult where
  state : SignupState
  effects : List Effect
deriving DecidableEq, Repr

/-- Registration status codes.  The four named values are the ones the
source switch recognises (lines 123-156).  Modelled from the spec: the
protocol enumeration (not under src/) has further values, collapsed here
into `Other` carrying their string representation; the source default
branch throws such a status. -/
inductive LoginResult
  | Success
  | NotOnTeam
  | AlreadyConfirmed
  | InviteConflict
  | Other (code : String)
deriving DecidableEq, Repr

/-- Source `onValidityChanged` (lines 59-80): a switch on the field name
updating the matching validity flag; unknown names fall through to an
empty default. -/
def onValidityChanged (field : String) (validity : Bool) (s : SignupState) : SignupState :=
  if field = "email" then { s with emailValidity := validity }
  else if field = "username" then { s with usernameValidity := validity }
  else if field = "password" then { s with passwordValidity := validity }
  else if field = "fullName" then { s with fullNameValidity := validity }
  else if field = "companyName" then { s with companyNameValidity := validity }
  else s

/-- The five validity recomputations at the top of `onSubmit` (source
lines 87-91), in source order: email, password, username, fullName,
companyName.  The validators read the render-time field texts. -/
def recomputeValidity (s0 : SignupState) (s : SignupState) : SignupState :=
  onValidityChanged "companyName" (isNotEmpty s0.companyName)
    (onValidityChanged "fullName" (isNotEmpty s0.fullName)
      (onValidityChanged "username" (isUsernameValid s0.username)
        (onValidityChanged "password" (isPasswordValid s0.password)
          (onValidityChanged "email" (isEmailValid s0.email) s))))

/-- The gate condition of `onSubmit` (source lines 93-102).  Per React
`useState` semantics it reads the render-time state `s0`: the setters
issued on lines 87-91 do not update the bindings this closure captured. -/
def gateBlocked (props : Props) (s0 : SignupState) : Bool :=
  s0.email == "" || !s0.emailValidity || !s0.usernameValidity ||
    s0.password == "" || !s0.passwordValidity ||
    s0.fullName == "" || !s0.fullNameValidity ||
    (!(wasInvited props) && (s0.companyName == "" || !s0.companyNameValidity))

/-- The `attributes` payload of `onSubmit` (source lines 106-113). -/
def mkAttributes (props : Props) (s0 : SignupState) : Attributes :=
  { email := s0.email
    username := s0.username
    password := s0.password
    fullName := s0.fullName
    inviteCode := props.inviteCode
    companyName := if wasInvited props then none else some s0.companyName }

/-- The `sendTelemetry` closure of `onSubmit` (source lines 116-121):
event "Account Created" with the submitted email and, when invited,
whether the submitted email differs from the prop email (a strict
JavaScript comparison with a possibly-undefined prop: against
`undefined` it is always true). -/
def accountCreatedEvent (props : Props) (s0 : SignupState) : TelemetryEvent :=
  { name := "Account Created"
    email := s0.email
    changedInviteEmail :=
      if wasInvited props then
        some (match props.email with
              | some e0 => s0.email != e0
              | none => true)
      else none }

/-- The `logError` call of the catch block (source lines 158-161). -/
def registrationErrorLog (err : String) (props : Props) (s0 : SignupState) : LogEntry :=
  { message := "Unexpected error during registration request: " ++ err
    email := s0.email
    inviteCode := props.inviteCode }

/-- Source `onSubmit` (lines 82-165) as a pure function of the props,
the render-time state `s0`, and the outcome of the awaited registration
call (`Except.error` models a transport throw).  Steps, in source order:
reset the two error banners; recompute all five validity flags from the
current texts (visible only in the post-attempt state); gate on the
render-time values; otherwise set `isLoading`, send the request, branch
on the status, and clear `isLoading` at the end of every path. -/
def onSubmit (props : Props) (s0 : SignupState)
    (response : Except String (LoginResult × Option String)) : SubmitResult :=
  let s2 := recomputeValidity s0 { s0 with inviteConflict := false, unexpectedError := false }
  if gateBlocked props s0 then
    { state := s2, effects := [] }
  else
    let s3 := { s2 with isLoading := true }
    let attributes := mkAttributes props s0
    match response with
    | Except.error err =>
        { state := { s3 with unexpectedError := true, isLoading := false }
          effects := [Effect.register attributes,
                      Effect.log (registrationErrorLog err props s0)] }
    | Except.ok (status, token) =>
        match status with
        | LoginResult.Success =>
            { state := { s3 with isLoading := false }
              effects := [Effect.register attributes,
                          Effect.track (accountCreatedEvent props s0),
                          Effect.nav (NavAction.emailConfirmation attributes.email props.teamId
                            attributes)] }
        | LoginResult.NotOnTeam =>
            { state := { s3 with isLoading := false }
              effects := [Effect.register attributes,
                          Effect.track (accountCreatedEvent props s0),
                          Effect.nav (NavAction.teamCreation token attributes.email)] }
        | LoginResult.AlreadyConfirmed =>
            { state := { s3 with isLoading := false }
              effects := [Effect.register attributes,
                          Effect.track (accountCreatedEvent props s0),
                          Effect.nav (NavAction.completeSignupAction attributes.email token
                            props.teamId false)] }
        | LoginResult.InviteConflict =>
            { state := { s3 with inviteConflict := true, isLoading := false }
              effects := [Effect.register attributes] }
        | LoginResult.Other code =>
            { state := { s3 with unexpectedError := true, isLoading := false }
              effects := [Effect.register attributes,
                          Effect.log (registrationErrorLog code props s0)] }

/-- The registration requests among the effects of an attempt. -/
def registerEffects (r : SubmitResult) : List Attributes :=
  r.effects.filterMap fun e =>
    match e with
    | Effect.register a => some a
    | _ => none

/-- The navigation dispatches among the effects of an attempt. -/
def navEffects (r : SubmitResult) : List NavAction :=
  r.effects.filterMap fun e =>
    match e with
    | Effect.nav n => some n
    | _ => none

/-- The telemetry events among the effects of an attempt. -/
def trackEffects (r : SubmitResult) : List TelemetryEvent :=
  r.effects.filterMap fun e =>
    match e with
    | Effect.track t => some t
    | _ => none

/-- The error logs among the effects of an attempt. -/
def logEffects (r : SubmitResult) : List LogEntry :=
  r.effects.filterMap fun e =>
    match e with
    | Effect.log l => some l
    | _ => none

/-- Whether the company-name field is rendered (source line 296: the
control group is rendered only when not invited). -/
def rendersCompanyNameField (props : Props) : Bool := !(wasInvited props)

/-- Absence of adjacent hyphens, used by the spec-side label predicate. -/
def noConsecutiveHyphens : List Char → Bool
  | [] => true
  | [_] => true
  | a :: b :: rest => !(a == '-' && b == '-') && noConsecutiveHyphens (b :: rest)

/-- Modelled from the spec: a domain label as the spec describes it,
"domain labels of 1-63 alphanumeric-or-hyphen characters ... no
consecutive/leading/trailing hyphens enforced per label". -/
def specLabel (l : List Char) : Bool :=
  !l.isEmpty && decide (l.length ≤ 63) && l.all alnumHyphen &&
    !(l.headD 'A' == '-') && !(l.getLastD 'A' == '-') && noConsecutiveHyphens l

/-- Split a character list at every literal dot. -/
def splitOnDot : List Char → List (List Char)
  | [] => [[]]
  | c :: rest =>
      if c == '.' then [] :: splitOnDot rest
      else
        match splitOnDot rest with
        | [] => [[c]]
        | p :: ps => (c :: p) :: ps

/-- Modelled from the spec: the documented email pattern, against which
the source validator is compared — non-empty, a non-empty local part
over the local-part class, an at-sign, then domain labels separated by
*literal* dots, each as `specLabel`. -/
def specEmailValid (s : String) : Bool :=
  s != "" &&
    (List.range s.data.length).any fun k =>
      (s.data.getD k 'A' == '@') && !(s.data.take k).isEmpty &&
        (s.data.take k).all localChar &&
        (splitOnDot (s.data.drop (k + 1))).all specLabel

/-- Declarative reading of the label fragment of the source regex: 1 to
63 alphanumeric-or-hyphen characters whose first and last characters are
alphanumeric (interior hyphens, consecutive ones included, allowed). -/
def LabelP (l : List Char) : Prop :=
  1 ≤ l.length ∧ l.length ≤ 63 ∧ (∀ c ∈ l, alnumHyphen c = true) ∧
    alnum (l.headD 'A') = true ∧ alnum (l.getLastD 'A') = true

/-- Declarative language of the domain part of the source regex: labels
separated by single arbitrary non-line-terminator characters (the
separator of the source pattern is an unescaped dot). -/
inductive DomLang : List Char → Prop where
  | single (l : List Char) (h : LabelP l) : DomLang l
  | cons (lab : List Char) (c : Char) (rest : List Char) (hlab : LabelP lab)
      (hc : dotAny c = true) (hrest : DomLang rest) : DomLang (lab ++ c :: rest)

/-- Fixture: the freshly mounted state with no prop email — all texts
empty, all validity flags at their initial `true`. -/
def emptyState : SignupState :=
  { email := "", emailValidity := true, username := "", usernameValidity := true,
    password := "", passwordValidity := true, fullName := "", fullNameValidity := true,
    companyName := "", companyNameValidity := true,
    isLoading := false, unexpectedError := false, inviteConflict := false }

/-- Fixture: a fully valid, consistent state. -/
def okState : SignupState :=
  { email := "jane@example.com", emailValidity := true, username := "jane",
    usernameValidity := true, password := "hunter2", passwordValidity := true,
    fullName := "Jane Doe", fullNameValidity := true, companyName := "Acme",
    companyNameValidity := true,
    isLoading := false, unexpectedError := false, inviteConflict := false }

/-- Fixture: an invalid email text whose validity flag is still at its
render-time `true` — exactly the state produced by mounting the form
with an invalid prop email and never editing the field. -/
def staleState : SignupState := { okState with email := "a@@b.com" }

/-- Fixture: props with nothing supplied (uninvited signup). -/
def noProps : Props :=
  { email := none, teamName := none, teamId := none, inviteCode := none }

/-- Fixture: props of an invited signup, with the invited email. -/
def invProps : Props :=
  { email := some "jane@example.com", teamName := some "Acme Team",
    teamId := some "team-1", inviteCode := some "code-1" }

/-- Fixture: a successful registration response. -/
def okResponse : Except String (LoginResult × Option String) :=
  Except.ok (LoginResult.Success, some "tok-1")

theorem recomputeValidity_eq (s0 s : SignupState) :
    recomputeValidity s0 s =
      { s with
        emailValidity := isEmailValid s0.email
        passwordValidity := isPasswordValid s0.password
        usernameValidity := isUsernameValid s0.username
        fullNameValidity := isNotEmpty s0.fullName
        companyNameValidity := isNotEmpty s0.companyName } := rfl

theorem gateBlocked_iff (props : Props) (s0 : SignupState) :
    gateBlocked props s0 = true ↔
      (s0.email = "" ∨ s0.emailValidity = false ∨ s0.usernameValidity = false ∨
        s0.password = "" ∨ s0.passwordValidity = false ∨
        s0.fullName = "" ∨ s0.fullNameValidity = false ∨
        (wasInvited props = false ∧
          (s0.companyName = "" ∨ s0.companyNameValidity = false))) := by
  simp only [gateBlocked, Bool.or_eq_true, Bool.and_eq_true, beq_iff_eq,
    Bool.not_eq_true', Bool.not_eq_true]
  tauto

theorem isAlphaRange (c : Char) :
    c.isAlpha = true ↔ (('A' ≤ c ∧ c ≤ 'Z') ∨ ('a' ≤ c ∧ c ≤ 'z')) := by
  simp only [Char.isAlpha, Char.isUpper, Char.isLower, Bool.or_eq_true, Bool.and_eq_true,
    decide_eq_true_iff, Char.le_def, ge_iff_le]
  exact Iff.rfl

theorem isDigitRange (c : Char) : c.isDigit = true ↔ ('0' ≤ c ∧ c ≤ '9') := by
  simp only [Char.isDigit, Bool.and_eq_true, decide_eq_true_iff, Char.le_def, ge_iff_le]
  exact Iff.rfl

theorem usernameChar_iff (c : Char) :
    usernameChar c = true ↔
      (c.isAlpha = true ∨ c.isDigit = true ∨ c = '-' ∨ c = '_' ∨ c = '.') := by
  simp only [usernameChar, Bool.or_eq_true, Bool.and_eq_true, decide_eq_true_iff, beq_iff_eq,
    isAlphaRange, isDigitRange]
  tauto

/-- C8: for all strings s, the username validator returns true iff
1 ≤ length(s) ≤ 21 and every character of s is a letter, digit, hyphen,
underscore, or dot. -/
theorem username_validator_charset (s : String) :
    isUsernameValid s = true ↔
      (1 ≤ s.length ∧ s.length ≤ 21 ∧
        ∀ c ∈ s.data, c.isAlpha = true ∨ c.isDigit = true ∨ c = '-' ∨ c = '_' ∨ c = '.') := by
  simp only [isUsernameValid, Bool.and_eq_true, decide_eq_true_iff, List.all_eq_true,
    usernameChar_iff]
  tauto

/-- Witness for C8: evaluated at the spec examples — a 7-character mixed
string is accepted, the empty string and a 22-character string are not. -/
theorem username_validator_charset_witness :
    isUsernameValid "a.b-c_9" = true ∧ isUsernameValid "" = false ∧
      isUsernameValid "abcdefghijklmnopqrstuv" = false :=
  ⟨(username_validator_charset "a.b-c_9").mpr (by decide),
   by
    have h := username_validator_charset ""
    revert h
    decide,
   by
    have h := username_validator_charset "abcdefghijklmnopqrstuv"
    revert h
    decide⟩

/-- C10: the validity-change callback leaves all five flags (and the
whole state) unchanged when called with a field name outside the five
known names. -/
theorem validity_callback_unknown_field (field : String) (validity : Bool) (s : SignupState)
    (h : field ∉ ["email", "username", "password", "fullName", "companyName"]) :
    onValidityChanged field validity s = s := by
  simp only [List.mem_cons, List.not_mem_nil, or_false, not_or] at h
  obtain ⟨h1, h2, h3, h4, h5⟩ := h
  simp [onValidityChanged, h1, h2, h3, h4, h5]

/-- Witness for C10: a callback for an unknown field name is a no-op. -/
theorem validity_callback_unknown_field_witness :
    onValidityChanged "birthday" true okState = okState :=
  validity_callback_unknown_field "birthday" true okState (by decide)

/-- C6: when an invite code was supplied, the gate outcome is
independent of the company name and its validity flag (so an empty
company name never blocks submission), and the request payload omits
the company name. -/
theorem invited_company_name_not_required (props : Props) (h : wasInvited props = true) :
    (∀ (s0 : SignupState) (c : String) (b : Bool),
      gateBlocked props { s0 with companyName := c, companyNameValidity := b } =
        gateBlocked props s0) ∧
    (∀ s0 : SignupState, (mkAttributes props s0).companyName = none) := by
  constructor
  · intro s0 c b
    simp [gateBlocked, h]
  · intro s0
    simp [mkAttributes, h]

/-- Witness for C6: with the invited props, emptying the company name
does not change the gate outcome, and the payload omits the company
name. -/
theorem invited_company_name_not_required_witness :
    gateBlocked invProps { okState with companyName := "", companyNameValidity := false } =
        gateBlocked invProps okState ∧
      (mkAttributes invProps okState).companyName = none :=
  ⟨(invited_company_name_not_required invProps (by decide)).1 okState "" false,
   (invited_company_name_not_required invProps (by decide)).2 okState⟩

/-- C7: a submit attempt with all five text fields empty produces no
effect at all (in particular no registration request) and leaves all
five validity flags false. -/
theorem submit_all_fields_empty (props : Props) (s0 : SignupState)
    (resp : Except String (LoginResult × Option String))
    (h : s0.email = "" ∧ s0.username = "" ∧ s0.password = "" ∧ s0.fullName = "" ∧
      s0.companyName = "") :
    (onSubmit props s0 resp).effects = [] ∧
      registerEffects (onSubmit props s0 resp) = [] ∧
      (onSubmit props s0 resp).state.emailValidity = false ∧
      (onSubmit props s0 resp).state.usernameValidity = false ∧
      (onSubmit props s0 resp).state.passwordValidity = false ∧
      (onSubmit props s0 resp).state.fullNameValidity = false ∧
      (onSubmit props s0 resp).state.companyNameValidity = false := by
  obtain ⟨h1, h2, h3, h4, h5⟩ := h
  have hg : gateBlocked props s0 = true := (gateBlocked_iff props s0).mpr (Or.inl h1)
  simp [onSubmit, hg, recomputeValidity_eq, registerEffects, h1, h2, h3, h4, h5,
    isEmailValid, isUsernameValid, isPasswordValid, isNotEmpty]

/-- Witness for C7: submitting the freshly mounted all-empty state. -/
theorem submit_all_fields_empty_witness :
    (onSubmit noProps emptyState okResponse).effects = [] ∧
      (onSubmit noProps emptyState okResponse).state.emailValidity = false :=
  ⟨(submit_all_fields_empty noProps emptyState okResponse (by decide)).1,
   (submit_all_fields_empty noProps emptyState okResponse (by decide)).2.2.1⟩

/-- Counterexample to C1 as stated: a submit attempt in which the email
text is invalid (the validator rejects it) but whose render-time
validity flags are still true — the state a mount with an invalid prop
email produces — does NOT abort: the registration request is sent.  The
gate reads the render-time flags, not the validators, because React
state setters do not update the bindings the handler closed over. -/
theorem submit_gate_stale_flag_counterexample :
    isEmailValid staleState.email = false ∧
      registerEffects (onSubmit noProps staleState okResponse) ≠ [] := by
  constructor
  · decide
  · decide

/-- C1 (amended): the gate is evaluated on the render-time validity
flags together with direct emptiness checks.  For every submit attempt
in which the email is empty, or any of the four render-time flags
emailValidity / usernameValidity / passwordValidity / fullNameValidity
is false, or the password or full name is empty, or (not invited and
the company name is empty or its render-time flag is false), the
handler aborts: no effect at all (no registration request, navigation,
telemetry or log), and the only state change is the five validity flags
recomputed from the current texts plus the reset of the two error
banners; isLoading is unchanged. -/
theorem submit_gate_blocked_aborts (props : Props) (s0 : SignupState)
    (resp : Except String (LoginResult × Option String))
    (h : s0.email = "" ∨ s0.emailValidity = false ∨ s0.usernameValidity = false ∨
      s0.password = "" ∨ s0.passwordValidity = false ∨
      s0.fullName = "" ∨ s0.fullNameValidity = false ∨
      (wasInvited props = false ∧
        (s0.companyName = "" ∨ s0.companyNameValidity = false))) :
    (onSubmit props s0 resp).effects = [] ∧
      (onSubmit props s0 resp).state =
        { s0 with
          emailValidity := isEmailValid s0.email
          usernameValidity := isUsernameValid s0.username
          passwordValidity := isPasswordValid s0.password
          fullNameValidity := isNotEmpty s0.fullName
          companyNameValidity := isNotEmpty s0.companyName
          unexpectedError := false
          inviteConflict := false } := by
  have hg : gateBlocked props s0 = true := (gateBlocked_iff props s0).mpr h
  constructor
  · simp [onSubmit, hg]
  · simp [onSubmit, hg, recomputeValidity_eq]

/-- Witness for the amended C1: a state whose render-time email flag is
false aborts the attempt with no effects, and isLoading stays false. -/
theorem submit_gate_blocked_aborts_witness :
    (onSubmit noProps { okState with emailValidity := false } okResponse).effects = [] ∧
      (onSubmit noProps { okState with emailValidity := false } okResponse).state.isLoading =
        false :=
  ⟨(submit_gate_blocked_aborts noProps { okState with emailValidity := false } okResponse
      (by decide)).1,
   by
    have h := (submit_gate_blocked_aborts noProps { okState with emailValidity := false }
      okResponse (by decide)).2
    rw [h]
    rfl⟩

/-- C3: when the gate passes and the awaited registration response has
status Success, the attempt consists of exactly the registration
request, then one "Account Created" telemetry event carrying the
submitted email (with the changed-invite-email property set only when
invited, comparing the submitted email with the prop email), then
exactly one navigation dispatch to the email-confirmation step carrying
exactly the submitted attribute record. -/
theorem submit_success_telemetry_then_navigation (props : Props) (s0 : SignupState)
    (tok : Option String) (h : gateBlocked props s0 = false) :
    (onSubmit props s0 (Except.ok (LoginResult.Success, tok))).effects =
        [Effect.register (mkAttributes props s0),
         Effect.track (accountCreatedEvent props s0),
         Effect.nav (NavAction.emailConfirmation (mkAttributes props s0).email props.teamId
           (mkAttributes props s0))] ∧
      navEffects (onSubmit props s0 (Except.ok (LoginResult.Success, tok))) =
        [NavAction.emailConfirmation (mkAttributes props s0).email props.teamId
          (mkAttributes props s0)] ∧
      (accountCreatedEvent props s0).name = "Account Created" ∧
      (accountCreatedEvent props s0).email = (mkAttributes props s0).email ∧
      (wasInvited props = false → (accountCreatedEvent props s0).changedInviteEmail = none) ∧
      (∀ e0, wasInvited props = true → props.email = some e0 →
        (accountCreatedEvent props s0).changedInviteEmail = some (s0.email != e0)) ∧
      (wasInvited props = true → props.email = none →
        (accountCreatedEvent props s0).changedInviteEmail = some true) := by
  refine ⟨by simp [onSubmit, h], by simp [onSubmit, h, navEffects], rfl, rfl, ?_, ?_, ?_⟩
  · intro hw
    simp [accountCreatedEvent, hw]
  · intro e0 hw he
    simp [accountCreatedEvent, hw, he]
  · intro hw he
    simp [accountCreatedEvent, hw, he]

/-- Witness for C3: an invited submit with an edited email gets the
telemetry event then the email-confirmation navigation. -/
theorem submit_success_telemetry_then_navigation_witness :
    (onSubmit invProps { okState with email := "new@example.com" }
        (Except.ok (LoginResult.Success, some "tok-1"))).effects =
      [Effect.register (mkAttributes invProps { okState with email := "new@example.com" }),
       Effect.track (accountCreatedEvent invProps { okState with email := "new@example.com" }),
       Effect.nav (NavAction.emailConfirmation
         (mkAttributes invProps { okState with email := "new@example.com" }).email
         invProps.teamId
         (mkAttributes invProps { okState with email := "new@example.com" }))] :=
  (submit_success_telemetry_then_navigation invProps
    { okState with email := "new@example.com" } (some "tok-1") (by decide)).1

/-- C4: for every gate-passing attempt, isLoading is false at the end
regardless of outcome; and when the registration call throws, or
returns a status outside the four recognized values, the attempt is
exactly the request plus one error log carrying the email and invite
code as context, unexpectedError becomes true and no navigation is
dispatched. -/
theorem submit_failure_logged_and_loading_cleared (props : Props) (s0 : SignupState)
    (resp : Except String (LoginResult × Option String))
    (h : gateBlocked props s0 = false) :
    (onSubmit props s0 resp).state.isLoading = false ∧
      (∀ err, resp = Except.error err →
        (onSubmit props s0 resp).effects =
            [Effect.register (mkAttributes props s0),
             Effect.log (registrationErrorLog err props s0)] ∧
          (onSubmit props s0 resp).state.unexpectedError = true ∧
          navEffects (onSubmit props s0 resp) = [] ∧
          (registrationErrorLog err props s0).email = s0.email ∧
          (registrationErrorLog err props s0).inviteCode = props.inviteCode) ∧
      (∀ code tok, resp = Except.ok (LoginResult.Other code, tok) →
        (onSubmit props s0 resp).effects =
            [Effect.register (mkAttributes props s0),
             Effect.log (registrationErrorLog code props s0)] ∧
          (onSubmit props s0 resp).state.unexpectedError = true ∧
          navEffects (onSubmit props s0 resp) = []) := by
  refine ⟨?_, ?_, ?_⟩
  · rcases resp with err | ⟨status, tok⟩
    · simp [onSubmit, h]
    · cases status <;> simp [onSubmit, h]
  · rintro err rfl
    refine ⟨by simp [onSubmit, h], by simp [onSubmit, h], by simp [onSubmit, h, navEffects],
      rfl, rfl⟩
  · rintro code tok rfl
    refine ⟨by simp [onSubmit, h], by simp [onSubmit, h], by simp [onSubmit, h, navEffects]⟩

/-- Witness for C4: a thrown transport error ends with isLoading false,
unexpectedError true, and the log carrying email and invite code. -/
theorem submit_failure_logged_and_loading_cleared_witness :
    (onSubmit invProps okState (Except.error "ECONNRESET")).state.isLoading = false ∧
      (onSubmit invProps okState (Except.error "ECONNRESET")).state.unexpectedError = true ∧
      (onSubmit invProps okState (Except.error "ECONNRESET")).effects =
        [Effect.register (mkAttributes invProps okState),
         Effect.log (registrationErrorLog "ECONNRESET" invProps okState)] :=
  ⟨(submit_failure_logged_and_loading_cleared invProps okState (Except.error "ECONNRESET")
      (by decide)).1,
   ((submit_failure_logged_and_loading_cleared invProps okState (Except.error "ECONNRESET")
      (by decide)).2.1 "ECONNRESET" rfl).2.1,
   ((submit_failure_logged_and_loading_cleared invProps okState (Except.error "ECONNRESET")
      (by decide)).2.1 "ECONNRESET" rfl).1⟩

/-- C5: for every gate-passing attempt whose response status is
InviteConflict, the attempt is exactly the registration request — no
navigation, no telemetry, no log — and afterwards inviteConflict is
true, unexpectedError false, isLoading false. -/
theorem submit_invite_conflict (props : Props) (s0 : SignupState) (tok : Option String)
    (h : gateBlocked props s0 = false) :
    (onSubmit props s0 (Except.ok (LoginResult.InviteConflict, tok))).effects =
        [Effect.register (mkAttributes props s0)] ∧
      navEffects (onSubmit props s0 (Except.ok (LoginResult.InviteConflict, tok))) = [] ∧
      trackEffects (onSubmit props s0 (Except.ok (LoginResult.InviteConflict, tok))) = [] ∧
      logEffects (onSubmit props s0 (Except.ok (LoginResult.InviteConflict, tok))) = [] ∧
      (onSubmit props s0 (Except.ok (LoginResult.InviteConflict, tok))).state.inviteConflict =
        true ∧
      (onSubmit props s0 (Except.ok (LoginResult.InviteConflict, tok))).state.unexpectedError =
        false ∧
      (onSubmit props s0 (Except.ok (LoginResult.InviteConflict, tok))).state.isLoading =
        false := by
  refine ⟨by simp [onSubmit, h], by simp [onSubmit, h, navEffects],
    by simp [onSubmit, h, trackEffects], by simp [onSubmit, h, logEffects],
    by simp [onSubmit, h], by simp [onSubmit, h, recomputeValidity_eq],
    by simp [onSubmit, h]⟩

/-- Witness for C5: a conflicting invite leaves the form on screen with
the conflict banner flag set and nothing dispatched. -/
theorem submit_invite_conflict_witness :
    (onSubmit invProps okState
        (Except.ok (LoginResult.InviteConflict, none))).state.inviteConflict = true ∧
      navEffects (onSubmit invProps okState
        (Except.ok (LoginResult.InviteConflict, none))) = [] :=
  ⟨(submit_invite_conflict invProps okState none (by decide)).2.2.2.2.1,
   (submit_invite_conflict invProps okState none (by decide)).2.1⟩

/-- C9: on every submit attempt — blocked or not, invited or not — the
post-attempt companyNameValidity equals the non-emptiness of the
company name text, recomputed before the gate; when invited the
company-name field is not rendered and the gate outcome is independent
of the company name and its flag, so an invited attempt with an empty
company name ends with the flag false without being blocked by it. -/
theorem company_validity_recomputed_even_when_invited (props : Props) (s0 : SignupState)
    (resp : Except String (LoginResult × Option String)) :
    (onSubmit props s0 resp).state.companyNameValidity = isNotEmpty s0.companyName ∧
      (wasInvited props = true →
        rendersCompanyNameField props = false ∧
        (∀ (c : String) (b : Bool),
          gateBlocked props { s0 with companyName := c, companyNameValidity := b } =
            gateBlocked props s0) ∧
        (s0.companyName = "" →
          (onSubmit props s0 resp).state.companyNameValidity = false)) := by
  have hmain : (onSubmit props s0 resp).state.companyNameValidity = isNotEmpty s0.companyName := by
    cases hg : gateBlocked props s0
    · rcases resp with err | ⟨status, tok⟩
      · simp [onSubmit, hg, recomputeValidity_eq]
      · cases status <;> simp [onSubmit, hg, recomputeValidity_eq]
    · simp [onSubmit, hg, recomputeValidity_eq]
  refine ⟨hmain, fun hw => ⟨by simp [rendersCompanyNameField, hw], fun c b => ?_, fun hc => ?_⟩⟩
  · simp [gateBlocked, hw]
  · rw [hmain, hc]
    rfl

/-- Witness for C9: an invited attempt on the all-empty state still
records companyNameValidity false, with the field unrendered. -/
theorem company_validity_recomputed_even_when_invited_witness :
    (onSubmit invProps emptyState okResponse).state.companyNameValidity = false ∧
      rendersCompanyNameField invProps = false :=
  ⟨((company_validity_recomputed_even_when_invited invProps emptyState okResponse).2
      (by decide)).2.2 rfl,
   ((company_validity_recomputed_even_when_invited invProps emptyState okResponse).2
      (by decide)).1⟩

theorem alnum_alnumHyphen {c : Char} (h : alnum c = true) : alnumHyphen c = true := by
  simp [alnumHyphen, h]

theorem getLastD_of_ne {l : List Char} (h : l ≠ []) (d : Char) : l.getLastD d = l.getLast h := by
  rw [List.getLastD_eq_getLast?, List.getLast?_eq_getLast l h]
  rfl

theorem isLabel_iff (l : List Char) : isLabel l = true ↔ LabelP l := by
  rcases l with _ | ⟨c, rest⟩
  · simp [isLabel, LabelP]
  rcases Decidable.em (rest = []) with hre | hne
  · subst hre
    simp only [isLabel, LabelP, List.isEmpty_nil, Bool.true_or, Bool.and_true, List.length_cons,
      List.length_nil, List.mem_cons, List.not_mem_nil, or_false, List.headD_cons,
      List.getLastD_cons, List.getLastD_nil]
    constructor
    · intro h
      refine ⟨by omega, by omega, ?_, h, h⟩
      rintro x rfl
      exact alnum_alnumHyphen h
    · rintro ⟨-, -, -, h, -⟩
      exact h
  · have hgd : rest.getLastD c = rest.getLast hne := getLastD_of_ne hne c
    have hgd' : rest.getLastD 'A' = rest.getLast hne := getLastD_of_ne hne 'A'
    have hsplit : rest.dropLast ++ [rest.getLast hne] = rest :=
      List.dropLast_append_getLast hne
    have hall : rest.all alnumHyphen =
        (rest.dropLast.all alnumHyphen && alnumHyphen (rest.getLast hne)) := by
      conv_lhs => rw [← hsplit]
      simp [List.all_append]
    have hremem : (∀ x ∈ rest, alnumHyphen x = true) ↔ rest.all alnumHyphen = true :=
      (List.all_eq_true).symm
    simp only [isLabel, LabelP, List.isEmpty_eq_false.mpr hne, Bool.false_or, List.length_cons,
      List.headD_cons, List.getLastD_cons, hgd, hgd', Bool.and_eq_true, decide_eq_true_iff,
      List.mem_cons]
    constructor
    · rintro ⟨hc, ⟨hlen, hdl⟩, hlast⟩
      have hrall : rest.all alnumHyphen = true := by
        rw [hall, hdl, alnum_alnumHyphen hlast]
        rfl
      refine ⟨by omega, by omega, ?_, hc, hlast⟩
      rintro x (rfl | hx)
      · exact alnum_alnumHyphen hc
      · exact List.all_eq_true.mp hrall x hx
    · rintro ⟨-, hlen, hmem, hc, hlast⟩
      have hrall : rest.all alnumHyphen = true :=
        List.all_eq_true.mpr fun x hx => hmem x (Or.inr hx)
      have hdl : rest.dropLast.all alnumHyphen = true := by
        rw [hall] at hrall
        exact (Bool.and_eq_true _ _ |>.mp hrall).1
      exact ⟨hc, ⟨by omega, hdl⟩, hlast⟩

theorem matchDomF_succ_ne (n : Nat) (l : List Char) (hne : l ≠ []) :
    matchDomF (n + 1) l =
      ((List.range 63).any fun i =>
        decide (i + 1 ≤ l.length) && isLabel (l.take (i + 1)) &&
          (match l.drop (i + 1) with
           | [] => true
           | c :: r => dotAny c && matchDomF n r)) := by
  rcases l with _ | ⟨c, t⟩
  · exact absurd rfl hne
  · rfl

theorem matchDomF_sound : ∀ n (l : List Char), matchDomF n l = true → DomLang l := by
  intro n
  induction n with
  | zero =>
    intro l h
    simp [matchDomF] at h
  | succ n ih =>
    intro l h
    rcases hl : l with _ | ⟨c, t⟩
    · subst hl
      simp [matchDomF] at h
    subst hl
    rw [matchDomF_succ_ne n (c :: t) (by simp)] at h
    rw [List.any_eq_true] at h
    obtain ⟨i, hi, hp⟩ := h
    rcases hd : (c :: t).drop (i + 1) with _ | ⟨c', r⟩
    · rw [hd] at hp
      simp only [Bool.and_eq_true, decide_eq_true_iff] at hp
      obtain ⟨⟨hk, hlab⟩, -⟩ := hp
      have hlen : (c :: t).length ≤ i + 1 := List.drop_eq_nil_iff.mp hd
      have htake : (c :: t).take (i + 1) = c :: t := List.take_of_length_le hlen
      rw [htake] at hlab
      exact DomLang.single _ ((isLabel_iff _).mp hlab)
    · rw [hd] at hp
      simp only [Bool.and_eq_true, decide_eq_true_iff] at hp
      obtain ⟨⟨hk, hlab⟩, hc', hrec⟩ := hp
      have hdec : (c :: t).take (i + 1) ++ c' :: r = c :: t := by
        conv_rhs => rw [← List.take_append_drop (i + 1) (c :: t)]
        rw [hd]
      rw [← hdec]
      exact DomLang.cons _ _ _ ((isLabel_iff _).mp hlab) hc' (ih r hrec)

theorem matchDomF_complete :
    ∀ (l : List Char), DomLang l → ∀ n, l.length < n → matchDomF n l = true := by
  intro l h
  induction h with
  | single l hl =>
    intro n hn
    rcases n with _ | m
    · omega
    have hne : l ≠ [] := by
      intro he
      rw [he] at hl
      simp [LabelP] at hl
    rw [matchDomF_succ_ne m l hne]
    rw [List.any_eq_true]
    have h1 : 1 ≤ l.length := hl.1
    have h63 : l.length ≤ 63 := hl.2.1
    refine ⟨l.length - 1, List.mem_range.mpr (by omega), ?_⟩
    have hk : l.length - 1 + 1 = l.length := by omega
    rw [hk, List.take_length, List.drop_length]
    simp [isLabel_iff l |>.mpr hl]
  | cons lab c rest hlab hc hrest ih =>
    intro n hn
    rcases n with _ | m
    · omega
    have h1 : 1 ≤ lab.length := hlab.1
    have h63 : lab.length ≤ 63 := hlab.2.1
    have hlne : lab ++ c :: rest ≠ [] := by simp
    rw [matchDomF_succ_ne m _ hlne]
    rw [List.any_eq_true]
    refine ⟨lab.length - 1, List.mem_range.mpr (by omega), ?_⟩
    have hk : lab.length - 1 + 1 = lab.length := by omega
    have hlen : (lab ++ c :: rest).length = lab.length + rest.length + 1 := by
      simp [List.length_append]
      omega
    have htake : (lab ++ c :: rest).take lab.length = lab := List.take_left lab (c :: rest)
    have hdrop : (lab ++ c :: rest).drop lab.length = c :: rest := List.drop_left lab (c :: rest)
    rw [hk, htake, hdrop]
    have hrec : matchDomF m rest = true := by
      refine ih m ?_
      rw [hlen] at hn
      omega
    simp [isLabel_iff lab |>.mpr hlab, hlen, hc, hrec]
    omega

theorem matchDom_iff (l : List Char) : matchDom l = true ↔ DomLang l :=
  ⟨matchDomF_sound _ l, fun h => matchDomF_complete l h _ (by omega)⟩

/-- Counterexample to C2 as stated: the source validator accepts
"a@b#c" — the dot of the pattern is unescaped in the string-built
RegExp and matches any character, so the domain labels are not
separated by literal dots — and accepts "a@a--b.co", whose label
contains consecutive interior hyphens; the documented pattern
(`specEmailValid`, written from the spec words) rejects both.  The
examples named by the claim itself agree on both definitions. -/
theorem email_validator_documented_pattern_counterexample :
    isEmailValid "a@b#c" = true ∧ specEmailValid "a@b#c" = false ∧
      isEmailValid "a@a--b.co" = true ∧ specEmailValid "a@a--b.co" = false ∧
      isEmailValid "a@b.co" = true ∧ specEmailValid "a@b.co" = true ∧
      isEmailValid "" = false ∧ specEmailValid "" = false ∧
      isEmailValid "a@@b.com" = false ∧ specEmailValid "a@@b.com" = false := by
  decide

/-- C2 (amended): for all strings s, the email validator returns true
iff s is non-empty and decomposes as a non-empty local part over the
local-part character class, an at-sign, and then domain labels of 1-63
alphanumeric-or-hyphen characters beginning and ending with an
alphanumeric (interior hyphens, consecutive ones included, are
allowed), separated by single arbitrary non-line-terminator characters
— not only literal dots, because the dot of the source pattern is
unescaped. -/
theorem email_validator_characterization (s : String) :
    isEmailValid s = true ↔
      (s ≠ "" ∧ ∃ u v, s.data = u ++ '@' :: v ∧ u ≠ [] ∧
        (∀ c ∈ u, localChar c = true) ∧ DomLang v) := by
  constructor
  · intro h
    simp only [isEmailValid, Bool.and_eq_true, bne_iff_ne, ne_eq] at h
    obtain ⟨hne, hmatch⟩ := h
    rw [emailRegexTest, List.any_eq_true] at hmatch
    obtain ⟨k, hk, hp⟩ := hmatch
    rw [List.mem_range] at hk
    simp only [Bool.and_eq_true, beq_iff_eq, Bool.not_eq_true', List.isEmpty_eq_false] at hp
    obtain ⟨⟨⟨hat, hne2⟩, hall⟩, hdom⟩ := hp
    refine ⟨hne, s.data.take k, s.data.drop (k + 1), ?_, hne2, List.all_eq_true.mp hall,
      (matchDom_iff _).mp hdom⟩
    have hgd : s.data.getD k 'A' = s.data[k] := List.getD_eq_getElem s.data 'A' hk
    have hdropk : s.data.drop k = s.data[k] :: s.data.drop (k + 1) :=
      List.drop_eq_getElem_cons hk
    conv_lhs => rw [← List.take_append_drop k s.data]
    rw [hdropk, ← hgd, hat]
  · rintro ⟨hne, u, v, hdecomp, hu, hall, hdom⟩
    simp only [isEmailValid, Bool.and_eq_true, bne_iff_ne, ne_eq]
    refine ⟨hne, ?_⟩
    rw [emailRegexTest, List.any_eq_true]
    refine ⟨u.length, ?_, ?_⟩
    · rw [List.mem_range, hdecomp, List.length_append, List.length_cons]
      omega
    · have htake : s.data.take u.length = u := by
        rw [hdecomp]
        exact List.take_left u ('@' :: v)
      have hdrop : s.data.drop (u.length + 1) = v := by
        rw [hdecomp]
        have hassoc : u ++ '@' :: v = (u ++ ['@']) ++ v := by simp
        rw [hassoc]
        have hl : (u ++ ['@']).length = u.length + 1 := by simp
        rw [← hl]
        exact List.drop_left (u ++ ['@']) v
      have hat : s.data.getD u.length 'A' = '@' := by
        rw [hdecomp, List.getD_append_right u ('@' :: v) 'A' u.length (le_refl _)]
        simp
      simp only [Bool.and_eq_true, beq_iff_eq, Bool.not_eq_true', List.isEmpty_eq_false]
      refine ⟨⟨⟨hat, ?_⟩, ?_⟩, ?_⟩
      · rw [htake]
        exact hu
      · rw [htake]
        exact List.all_eq_true.mpr hall
      · rw [hdrop]
        exact (matchDom_iff v).mpr hdom

/-- Witness for the amended C2: the characterization applied in both
directions — a domain with a non-dot separator is built from the
declarative language and accepted, and acceptance of a dotted domain
yields a decomposition. -/
theorem email_validator_characterization_witness :
    isEmailValid "a@b#c" = true :=
  (email_validator_characterization "a@b#c").mpr
    ⟨by decide, ['a'], ['b', '#', 'c'], by decide, by decide, by decide,
      DomLang.cons ['b'] '#' ['c']
        ⟨by decide, by decide, by decide, by decide, by decide⟩ (by decide)
        (DomLang.single ['c'] ⟨by decide, by decide, by decide, by decide, by decide⟩)⟩
